import Mathlib

/-!
# Verification of the EyeRounds flashcard scraper against its specification

Shallow embedding of the extraction engine of the `eyeroundsflashcards`
repository.  Python strings are embedded as `String`/`List Char`, the
`re` module as a small backtracking regular-expression interpreter with the
same leftmost / greedy / lazy semantics restricted to the constructs the
repository's patterns use, and `urllib.parse.urljoin` as the RFC 3986
reference-resolution algorithm.  Every definition is translated from the
Python source (file and line references in the doc comments); claim-side
definitions written from the specification's words are explicitly marked.
-/

/-! ## Python string primitives -/

/-- Python whitespace for `str.strip` and the regex class `\s`. -/
def pyIsSpaceChar (c : Char) : Bool :=
  c = ' ' || c = '\t' || c = '\n' || c = '\r' || c = '\x0b' || c = '\x0c'

/-- `str.strip()` on a character list. -/
def pyStripL (l : List Char) : List Char :=
  ((l.dropWhile pyIsSpaceChar).reverse.dropWhile pyIsSpaceChar).reverse

/-- `str.strip()`. -/
def pyStrip (s : String) : String := ⟨pyStripL s.data⟩

/-- `str.lower()` (ASCII, as in the scraped pages). -/
def pyLower (s : String) : String := ⟨s.data.map Char.toLower⟩

/-- `str.upper()` (ASCII). -/
def pyUpper (s : String) : String := ⟨s.data.map Char.toUpper⟩

/-- `needle` occurs at the head of `hay`. -/
def listHasPrefix : List Char → List Char → Bool
  | [], _ => true
  | _ :: _, [] => false
  | a :: n, b :: h => a = b && listHasPrefix n h

/-- Python substring containment `needle in hay` on lists. -/
def hasSubL (hay needle : List Char) : Bool :=
  (List.range (hay.length + 1)).any (fun i => listHasPrefix needle (hay.drop i))

/-- Python substring containment `needle in hay`. -/
def hasSubStr (hay needle : String) : Bool := hasSubL hay.data needle.data

/-- Python `s.split(marker)[0]`: the prefix before the first occurrence of
`marker` (the whole string when `marker` does not occur). -/
def splitFirstAt (s marker : String) : String :=
  match (List.range (s.data.length + 1)).find?
      (fun i => listHasPrefix marker.data (s.data.drop i)) with
  | some i => ⟨s.data.take i⟩
  | none => s

/-- Python `str.title()` helper: the Bool records whether the previous
character was alphabetic. -/
def pyTitleGo : Bool → List Char → List Char
  | _, [] => []
  | prev, c :: rest =>
    if c.isAlpha then
      (if prev then c.toLower else c.toUpper) :: pyTitleGo true rest
    else c :: pyTitleGo false rest

/-- Python `str.title()`. -/
def pyTitle (s : String) : String := ⟨pyTitleGo false s.data⟩

/-- Python `s.replace(a, b)` for single characters, as used by the title
fallback (`part.replace('-', ' ').replace('_', ' ')`). -/
def pyReplaceChar (s : String) (a b : Char) : String :=
  ⟨s.data.map (fun c => if c = a then b else c)⟩

/-- Python `s.rstrip(c)` for a single strip character. -/
def pyRstrip (s : String) (c : Char) : String :=
  ⟨(s.data.reverse.dropWhile (· = c)).reverse⟩

/-- Python truthiness chain `a or b` on optional string attributes, as in
`img.get('src') or img.get('data-src')`; a missing attribute (`none`) and
the empty string are both falsy, and the overall falsy result is
collapsed to the empty string. -/
def attrOr (a b : Option String) : String :=
  match a with
  | some s => if s = "" then b.getD "" else s
  | none => b.getD ""

/-- Python `s.startswith(pre)`. -/
def strStartsWith (s pre : String) : Bool := listHasPrefix pre.data s.data

/-- Python slice `s[:n]`. -/
def pyTake (s : String) (n : Nat) : String := ⟨s.data.take n⟩

/-- Split a character list on a separator, keeping empty pieces
(Python `str.split(sep)` with a one-character separator). -/
def splitCharGo (sep : Char) : List Char → List Char → List (List Char)
  | [], acc => [acc.reverse]
  | c :: rest, acc =>
    if c = sep then acc.reverse :: splitCharGo sep rest []
    else splitCharGo sep rest (c :: acc)

/-- Python `s.split(sep)` for a one-character separator. -/
def pySplitChar (s : String) (sep : Char) : List String :=
  (splitCharGo sep s.data []).map (fun l => ⟨l⟩)

/-- Python `' '.join(parts)`. -/
def pyJoinSpace : List String → String
  | [] => ""
  | h :: t => t.foldl (fun acc s => acc ++ " " ++ s) h

/-! ## A model of Python's `re` module

Only the constructs appearing in the repository's patterns are supported:
literals, character classes, alternation (leftmost preference), greedy and
lazy `*`/`+`/`?`/bounded repetition, one capturing group, lookahead
`(?=...)`, `^` and `$`.  Matching uses explicit backtracking in
continuation-passing style; a fuel parameter makes it structurally
terminating (the fuel is generous enough for every concrete input used
below, and theorems quantifying over all inputs never depend on whether a
particular search succeeds). -/

/-- A regex character class. -/
structure CCls where
  neg : Bool := false
  chars : List Char := []
  ranges : List (Char × Char) := []
  sp : Bool := false
  dig : Bool := false
deriving Repr, DecidableEq

/-- Membership of a character in the positive content of a class. -/
def cclsBase (k : CCls) (c : Char) : Bool :=
  k.chars.contains c || k.ranges.any (fun r => r.1 ≤ c && c ≤ r.2)
    || (k.sp && pyIsSpaceChar c) || (k.dig && c.isDigit)

/-- Class match with Python's `re.IGNORECASE` behaviour: under `ci` the
character also matches through its case-swapped counterpart, and negation
is applied after case folding. -/
def cclsMatch (ci : Bool) (k : CCls) (c : Char) : Bool :=
  let hit := cclsBase k c ||
    (ci && cclsBase k (if c.isUpper then c.toLower else c.toUpper))
  if k.neg then !hit else hit

/-- Regular expression abstract syntax. -/
inductive RE where
  | eps
  | bos
  | eos
  | lit (cs : List Char)
  | cls (k : CCls)
  | seq (a b : RE)
  | alt (a b : RE)
  | star (r : RE) (lazy : Bool)
  | grp (r : RE)
  | look (r : RE)
deriving Repr

/-- Case-insensitive-aware character comparison for literals. -/
def charEqCI (ci : Bool) (a b : Char) : Bool :=
  a = b || (ci && a.toLower = b.toLower)

/-- Does the literal `cs` occur in `s` at position `i`? -/
def litAt (ci : Bool) (s : List Char) (i : Nat) : List Char → Bool
  | [] => true
  | c :: rest =>
    match s.get? i with
    | some d => charEqCI ci c d && litAt ci s (i + 1) rest
    | none => false

/-- Group state: the span of capturing group 1, when set. -/
abbrev MG := Option (Nat × Nat)

/-- Result of a match attempt: end position and group state. -/
abbrev MRes := Option (Nat × MG)

/-- The backtracking matcher.  `k` is the continuation receiving the
position after `r` and the current group state; alternation prefers its
left branch, greedy stars try to consume first, lazy stars try the
continuation first — exactly Python's strategy.  Empty star iterations are
cut off (`j = i`), matching Python's refusal to loop on empty repeats. -/
def reMat (ci : Bool) (s : List Char) :
    Nat → RE → Nat → MG → (Nat → MG → MRes) → MRes
  | 0, _, _, _, _ => none
  | Nat.succ fuel, r, i, g, k =>
    match r with
    | .eps => k i g
    | .bos => if i = 0 then k i g else none
    | .eos =>
      if i = s.length || (i + 1 = s.length && s.get? i = some '\n') then
        k i g
      else none
    | .lit cs => if litAt ci s i cs then k (i + cs.length) g else none
    | .cls kk =>
      match s.get? i with
      | some c => if cclsMatch ci kk c then k (i + 1) g else none
      | none => none
    | .seq a b =>
      reMat ci s fuel a i g (fun j g2 => reMat ci s fuel b j g2 k)
    | .alt a b =>
      match reMat ci s fuel a i g k with
      | some res => some res
      | none => reMat ci s fuel b i g k
    | .star r lzy =>
      if lzy then
        match k i g with
        | some res => some res
        | none =>
          reMat ci s fuel r i g (fun j g2 =>
            if j = i then none else reMat ci s fuel (RE.star r true) j g2 k)
      else
        match reMat ci s fuel r i g (fun j g2 =>
            if j = i then none
            else reMat ci s fuel (RE.star r false) j g2 k) with
        | some res => some res
        | none => k i g
    | .grp r => reMat ci s fuel r i g (fun j _ => k j (some (i, j)))
    | .look r =>
      match reMat ci s fuel r i g (fun j g2 => some (j, g2)) with
      | some _ => k i g
      | none => none

/-- A regex match: start and stop of group 0, optional span of group 1. -/
structure RXM where
  start : Nat
  stop : Nat
  grp : Option (Nat × Nat)
deriving Repr, DecidableEq

/-- Fuel bound for the matcher: proportional to the subject length. -/
def fuelFor (s : List Char) : Nat := 64 * s.length + 800

/-- Attempt a match anchored at position `i`. -/
def reMatchAt (ci : Bool) (pat : RE) (s : List Char) (i : Nat) : Option RXM :=
  match reMat ci s (fuelFor s) pat i none (fun j g => some (j, g)) with
  | some (j, g) => some ⟨i, j, g⟩
  | none => none

/-- `re.search`: the leftmost position admitting a match wins. -/
def reSearchL (ci : Bool) (pat : RE) (s : List Char) : Option RXM :=
  (List.range (s.length + 1)).findSome? (reMatchAt ci pat s)

/-- Sub-list `s[a:b]`. -/
def sliceL (s : List Char) (a b : Nat) : List Char := (s.drop a).take (b - a)

/-- `match.group(0)` of a match over `s`. -/
def rxmGroup0 (s : List Char) (m : RXM) : List Char := sliceL s m.start m.stop

/-- `match.group(1)` of a match over `s` (empty when the group never
participated). -/
def rxmGroup1 (s : List Char) (m : RXM) : List Char :=
  match m.grp with
  | some (a, b) => sliceL s a b
  | none => []

/-- `re.search` on `String`s. -/
def reSearchS (ci : Bool) (pat : RE) (s : String) : Option RXM :=
  reSearchL ci pat s.data

/-- `match.group(1)` as a `String`. -/
def group1S (s : String) (m : RXM) : String := ⟨rxmGroup1 s.data m⟩

/-- `match.group(0)` as a `String`. -/
def group0S (s : String) (m : RXM) : String := ⟨rxmGroup0 s.data m⟩

/-- One pass of `re.sub`: replace non-overlapping matches left to right.
None of the repository's substitution patterns can match the empty string;
should one ever do so the remainder is returned unchanged. -/
def reSubGo (ci : Bool) (pat : RE) (repl : List Char) :
    Nat → List Char → List Char
  | 0, s => s
  | Nat.succ fuel, s =>
    match reSearchL ci pat s with
    | none => s
    | some m =>
      if m.stop ≤ m.start then s
      else sliceL s 0 m.start ++ repl ++ reSubGo ci pat repl fuel (s.drop m.stop)

/-- `re.sub(pat, repl, s)`. -/
def reSubS (ci : Bool) (pat : RE) (repl s : String) : String :=
  ⟨reSubGo ci pat repl.data (s.data.length + 1) s.data⟩

/-- Search for the leftmost match at or after position `pos`. -/
def reSearchFrom (ci : Bool) (pat : RE) (s : List Char) (pos : Nat) :
    Option RXM :=
  ((List.range (s.length + 1 - pos)).map (· + pos)).findSome?
    (reMatchAt ci pat s)

/-- `re.finditer`: all non-overlapping matches, scanning left to right. -/
def reFindGo (ci : Bool) (pat : RE) (s : List Char) :
    Nat → Nat → List RXM
  | 0, _ => []
  | Nat.succ fuel, pos =>
    match reSearchFrom ci pat s pos with
    | none => []
    | some m =>
      m :: reFindGo ci pat s fuel (if m.stop ≤ pos then pos + 1 else m.stop)

/-- `list(re.finditer(pat, s))`. -/
def reFindIter (ci : Bool) (pat : RE) (s : String) : List RXM :=
  reFindGo ci pat s.data (s.data.length + 1) 0

/-! ### Pattern combinators -/

/-- Sequence a list of regexes. -/
def reCat (l : List RE) : RE := l.foldr RE.seq RE.eps

/-- Literal from a string. -/
def reLit (s : String) : RE := RE.lit s.data

/-- `r+` (greedy). -/
def rePlus (r : RE) : RE := RE.seq r (RE.star r false)

/-- `r+?` (lazy). -/
def rePlusLazy (r : RE) : RE := RE.seq r (RE.star r true)

/-- `r?` (greedy). -/
def reOpt (r : RE) : RE := RE.alt r RE.eps

/-- `r{0,n}` (greedy), as nested optionals so the maximal count is tried
first, matching Python's exploration order. -/
def reUpTo (r : RE) : Nat → RE
  | 0 => RE.eps
  | Nat.succ n => reOpt (RE.seq r (reUpTo r n))

/-- Chained alternation, leftmost first. -/
def reAlts (l : List RE) : RE := l.foldr RE.alt (RE.cls ⟨false, [], [], false, false⟩)

/-- `[^\r\n]` -/
def clsNotCRLF : CCls := { neg := true, chars := ['\r', '\n'] }

/-- `[:\s]` -/
def clsColonSpace : CCls := { chars := [':'], sp := true }

/-- `[^\\n]` — the class written `[^\\n]` in a raw string excludes the
backslash character and the letter `n` (scraper.py line 761). -/
def clsNotBackslashN : CCls := { neg := true, chars := ['\\', 'n'] }

/-- `[^\n]` -/
def clsNotNL : CCls := { neg := true, chars := ['\n'] }

/-- `\s` -/
def clsSpace : CCls := { sp := true }

/-- `\d` -/
def clsDigit : CCls := { dig := true }

/-- `[a-z]` -/
def clsLower : CCls := { ranges := [('a', 'z')] }

/-- `[A-Z]` -/
def clsUpper : CCls := { ranges := [('A', 'Z')] }

/-- `[^.]` -/
def clsNotDot : CCls := { neg := true, chars := ['.'] }

/-- `[^)]` -/
def clsNotRParen : CCls := { neg := true, chars := [')'] }

/-- `[^F]` -/
def clsNotF : CCls := { neg := true, chars := ['F'] }

/-- `[\r\n]` -/
def clsCRLF : CCls := { chars := ['\r', '\n'] }

/-- `[-–]` (hyphen or en dash) -/
def clsDash : CCls := { chars := ['-', '–'] }

/-! ## The repository's regular expressions as `RE` values

Each definition's doc comment quotes the Python pattern it translates. -/

/-- `\.[^.]*` — one sentence fragment: a dot followed by non-dot text. -/
def dotSeg : RE := reCat [reLit ".", RE.star (RE.cls clsNotDot) false]

/-- `\s+` -/
def wsPlusPat : RE := rePlus (RE.cls clsSpace)

/-- `Figure\s+(\d+[a-z]?)` — figure-label search (scraper.py 808, 815;
scrape_all.py 191). -/
def figLabelPat : RE :=
  reCat [reLit "Figure", rePlus (RE.cls clsSpace),
    RE.grp (reCat [rePlus (RE.cls clsDigit), reOpt (RE.cls clsLower)])]

/-- `Category\(?ies?\)?[:\s]+([^\r\n]+)` (scrape_all.py 128).  Note the
literal `ie` between the optional parentheses is mandatory, so plain
`Category:` or `Categories:` never matches — only the site's
`Category(ies):` spelling (and variants such as `Categoryies:`). -/
def catPatAll : RE :=
  reCat [reLit "Category", reOpt (reLit "("), reLit "ie", reOpt (reLit "s"),
    reOpt (reLit ")"), rePlus (RE.cls clsColonSpace),
    RE.grp (rePlus (RE.cls clsNotCRLF))]

/-- `Category\(?ies?\)?[:\s]+([^\\n]+?)(?=Contributor|Photographer|Posted|$)`
(scraper.py 761); the class `[^\\n]` excludes backslash and the letter n. -/
def catPatPage : RE :=
  reCat [reLit "Category", reOpt (reLit "("), reLit "ie", reOpt (reLit "s"),
    reOpt (reLit ")"), rePlus (RE.cls clsColonSpace),
    RE.grp (rePlusLazy (RE.cls clsNotBackslashN)),
    RE.look (reAlts [reLit "Contributor", reLit "Photographer",
      reLit "Posted", RE.eos])]

/-- `Contributor[s]?[:\s]+([^\r\n]+?)(?=\r|\n|Photographer|Posted|Category)`
(scrape_all.py 96). -/
def contribPatAll : RE :=
  reCat [reLit "Contributor", reOpt (reLit "s"), rePlus (RE.cls clsColonSpace),
    RE.grp (rePlusLazy (RE.cls clsNotCRLF)),
    RE.look (reAlts [reLit "\r", reLit "\n", reLit "Photographer",
      reLit "Posted", reLit "Category"])]

/-- `Photographer[s]?[:\s]+([^\r\n]+?)(?=\r|\n|Posted|Category)`
(scrape_all.py 103). -/
def photoPatAll : RE :=
  reCat [reLit "Photographer", reOpt (reLit "s"), rePlus (RE.cls clsColonSpace),
    RE.grp (rePlusLazy (RE.cls clsNotCRLF)),
    RE.look (reAlts [reLit "\r", reLit "\n", reLit "Posted", reLit "Category"])]

/-- `(?:Photographer[s]?:[^\r\n]+[\r\n]\s*)([A-Z][^.]*(?:\.[^.]*){1,5})`
(scrape_all.py 146). -/
def descPat1 : RE :=
  reCat [reLit "Photographer", reOpt (reLit "s"), reLit ":",
    rePlus (RE.cls clsNotCRLF), RE.cls clsCRLF, RE.star (RE.cls clsSpace) false,
    RE.grp (reCat [RE.cls clsUpper, RE.star (RE.cls clsNotDot) false,
      RE.seq dotSeg (reUpTo dotSeg 4)])]

/-- `([A-Z][a-z]+ is (?:a |an |the )?[^.]*(?:\.[^.]*){1,3})`
(scrape_all.py 147). -/
def descPat2 : RE :=
  RE.grp (reCat [RE.cls clsUpper, rePlus (RE.cls clsLower), reLit " is ",
    reOpt (reAlts [reLit "a ", reLit "an ", reLit "the "]),
    RE.star (RE.cls clsNotDot) false, RE.seq dotSeg (reUpTo dotSeg 2)])

/-- `(This (?:patient|case|photograph)[^.]*(?:\.[^.]*){1,3})`
(scrape_all.py 148). -/
def descPat3 : RE :=
  RE.grp (reCat [reLit "This ",
    reAlts [reLit "patient", reLit "case", reLit "photograph"],
    RE.star (RE.cls clsNotDot) false, RE.seq dotSeg (reUpTo dotSeg 2)])

/-- `(These (?:photographs|images)[^.]*(?:\.[^.]*){1,3})`
(scrape_all.py 149). -/
def descPat4 : RE :=
  RE.grp (reCat [reLit "These ",
    reAlts [reLit "photographs", reLit "images"],
    RE.star (RE.cls clsNotDot) false, RE.seq dotSeg (reUpTo dotSeg 2)])

/-- `Contributor:\s*([^\n]+?)(?:\n|Photographer|$)` (scraper.py 387). -/
def sectionContribPat : RE :=
  reCat [reLit "Contributor:", RE.star (RE.cls clsSpace) false,
    RE.grp (rePlusLazy (RE.cls clsNotNL)),
    reAlts [reLit "\n", reLit "Photographer", RE.eos]]

/-- `Photographer[s]?:\s*([^\n]+?)(?:\n|These|Figure|$)` (scraper.py 391). -/
def sectionPhotoPat : RE :=
  reCat [reLit "Photographer", reOpt (reLit "s"), reLit ":",
    RE.star (RE.cls clsSpace) false, RE.grp (rePlusLazy (RE.cls clsNotNL)),
    reAlts [reLit "\n", reLit "These", reLit "Figure", RE.eos]]

/-- `(These photographs show[^.]*(?:\.[^.]*){1,})` (scraper.py 397, 490). -/
def hdPat1 : RE :=
  RE.grp (reCat [reLit "These photographs show",
    RE.star (RE.cls clsNotDot) false, rePlus dotSeg])

/-- `(These images show[^.]*(?:\.[^.]*){1,})` (scraper.py 398). -/
def hdPat2 : RE :=
  RE.grp (reCat [reLit "These images show",
    RE.star (RE.cls clsNotDot) false, rePlus dotSeg])

/-- `(This patient [^.]*(?:\.[^.]*){1,})` (scraper.py 399, 491). -/
def hdPat3 : RE :=
  RE.grp (reCat [reLit "This patient ",
    RE.star (RE.cls clsNotDot) false, rePlus dotSeg])

/-- `(This [^.]*(?:\.[^.]*){1,})` (scraper.py 400, 492). -/
def hdPat4 : RE :=
  RE.grp (reCat [reLit "This ",
    RE.star (RE.cls clsNotDot) false, rePlus dotSeg])

/-- `\s*Figure \d+[a-z]?[:\s]*[^.]*\.` (scraper.py 408, 515). -/
def figSubPatA : RE :=
  reCat [RE.star (RE.cls clsSpace) false, reLit "Figure ",
    rePlus (RE.cls clsDigit), reOpt (RE.cls clsLower),
    RE.star (RE.cls clsColonSpace) false, RE.star (RE.cls clsNotDot) false,
    reLit "."]

/-- `\s*\(Figures? \d+[a-z]?[^)]*\)` (scraper.py 409, 422, 501, 514). -/
def figSubPatB : RE :=
  reCat [RE.star (RE.cls clsSpace) false, reLit "(Figure", reOpt (reLit "s"),
    reLit " ", rePlus (RE.cls clsDigit), reOpt (RE.cls clsLower),
    RE.star (RE.cls clsNotRParen) false, reLit ")"]

/-- `Contributor:[^\n]+\n\s*([A-Z][^.]*(?:\.[^.]*){0,2})` (scraper.py 418). -/
def afterContribPat : RE :=
  reCat [reLit "Contributor:", rePlus (RE.cls clsNotNL), reLit "\n",
    RE.star (RE.cls clsSpace) false,
    RE.grp (reCat [RE.cls clsUpper, RE.star (RE.cls clsNotDot) false,
      reUpTo dotSeg 2])]

/-- `Contributor:[^\n]+\n\s*([A-Z][^F][^.]*(?:\.[^.]*){0,2})`
(scraper.py 510). -/
def afterContribPatF : RE :=
  reCat [reLit "Contributor:", rePlus (RE.cls clsNotNL), reLit "\n",
    RE.star (RE.cls clsSpace) false,
    RE.grp (reCat [RE.cls clsUpper, RE.cls clsNotF,
      RE.star (RE.cls clsNotDot) false, reUpTo dotSeg 2])]

/-- `Entry\s+(\d+)` (scraper.py 463). -/
def entryNumPat : RE :=
  reCat [reLit "Entry", rePlus (RE.cls clsSpace),
    RE.grp (rePlus (RE.cls clsDigit))]

/-- `Contributor:\s*([^\n]+)` (scraper.py 292, 480, 552). -/
def simpleContribPat : RE :=
  reCat [reLit "Contributor:", RE.star (RE.cls clsSpace) false,
    RE.grp (rePlus (RE.cls clsNotNL))]

/-- `Photographer[s]?:\s*([^\n]+)` (scraper.py 297, 484, 568). -/
def simplePhotoPat : RE :=
  reCat [reLit "Photographer", reOpt (reLit "s"), reLit ":",
    RE.star (RE.cls clsSpace) false, RE.grp (rePlus (RE.cls clsNotNL))]

/-- `^EyeRounds\.org\s*[-–]\s*` (scraper.py 734). -/
def h1PrefixPat : RE :=
  reCat [RE.bos, reLit "EyeRounds.org", RE.star (RE.cls clsSpace) false,
    RE.cls clsDash, RE.star (RE.cls clsSpace) false]

/-- `\s*[-–]\s*EyeRounds\.org$` (scraper.py 735). -/
def h1SuffixPat : RE :=
  reCat [RE.star (RE.cls clsSpace) false, RE.cls clsDash,
    RE.star (RE.cls clsSpace) false, reLit "EyeRounds.org", RE.eos]

/-! ## `urllib.parse.urljoin`

A model of Python's reference resolution (RFC 3986 §5.2) for the URL
shapes the scraper produces: scheme parsing, authority, path merging and
dot-segment removal; query and fragment are carried along. -/

/-- Characters allowed in a URL scheme after the first letter. -/
def schemeChar (c : Char) : Bool :=
  c.isAlpha || c.isDigit || c = '+' || c = '-' || c = '.'

/-- Split off `scheme:` when the prefix before the first colon is a valid
scheme; otherwise no scheme. -/
def urlScheme (l : List Char) : List Char × List Char :=
  match l.findIdx? (· = ':') with
  | some i =>
    let pre := l.take i
    if pre ≠ [] && pre.head?.elim false Char.isAlpha && pre.all schemeChar then
      (pre.map Char.toLower, l.drop (i + 1))
    else ([], l)
  | none => ([], l)

/-- A character terminating the authority component. -/
def netlocStop (c : Char) : Bool := c = '/' || c = '?' || c = '#'

/-- Split off `//netloc` when present. -/
def splitNetloc (l : List Char) : List Char × List Char :=
  if listHasPrefix "//".data l then
    let rest := l.drop 2
    (rest.takeWhile (fun c => !netlocStop c), rest.dropWhile (fun c => !netlocStop c))
  else ([], l)

/-- Split at the first occurrence of a marker character, dropping it. -/
def splitAtChar (mark : Char) (l : List Char) : List Char × List Char :=
  match l.findIdx? (· = mark) with
  | some i => (l.take i, l.drop (i + 1))
  | none => (l, [])

/-- The five components of a split URL. -/
structure USplit where
  scheme : List Char
  netloc : List Char
  path : List Char
  query : List Char
  frag : List Char
deriving Repr, DecidableEq

/-- `urllib.parse.urlsplit`. -/
def urlsplitL (l : List Char) : USplit :=
  let (sc, r1) := urlScheme l
  let (nl, r2) := splitNetloc r1
  let (r3, fr) := splitAtChar '#' r2
  let (pa, qu) := splitAtChar '?' r3
  ⟨sc, nl, pa, qu, fr⟩

/-- Remove the last path segment together with its preceding slash. -/
def dropLastSeg (out : List Char) : List Char :=
  ((out.reverse.dropWhile (· ≠ '/')).drop 1).reverse

/-- Detach the first path segment (with its leading slash when present). -/
def firstSegSplit (l : List Char) : List Char × List Char :=
  match l with
  | '/' :: rest =>
    ('/' :: rest.takeWhile (· ≠ '/'), rest.dropWhile (· ≠ '/'))
  | _ => (l.takeWhile (· ≠ '/'), l.dropWhile (· ≠ '/'))

/-- RFC 3986 §5.2.4 remove_dot_segments, fuelled. -/
def rdsGo : Nat → List Char → List Char → List Char
  | 0, _, out => out
  | Nat.succ fuel, inp, out =>
    if inp = [] then out
    else if listHasPrefix "../".data inp then rdsGo fuel (inp.drop 3) out
    else if listHasPrefix "./".data inp then rdsGo fuel (inp.drop 2) out
    else if listHasPrefix "/./".data inp then rdsGo fuel ('/' :: inp.drop 3) out
    else if inp = "/.".data then rdsGo fuel ['/'] out
    else if listHasPrefix "/../".data inp then
      rdsGo fuel ('/' :: inp.drop 4) (dropLastSeg out)
    else if inp = "/..".data then rdsGo fuel ['/'] (dropLastSeg out)
    else if inp = ".".data || inp = "..".data then rdsGo fuel [] out
    else
      let (seg, rest) := firstSegSplit inp
      rdsGo fuel rest (out ++ seg)

/-- remove_dot_segments. -/
def rdsL (l : List Char) : List Char := rdsGo (2 * l.length + 4) l []

/-- `urllib.parse.urlunsplit`. -/
def urlunsplitL (u : USplit) : List Char :=
  (if u.scheme ≠ [] then u.scheme ++ [':'] else [])
    ++ (if u.netloc ≠ [] then '/' :: '/' :: u.netloc else [])
    ++ u.path
    ++ (if u.query ≠ [] then '?' :: u.query else [])
    ++ (if u.frag ≠ [] then '#' :: u.frag else [])

/-- The base path up to and including its last slash (empty when the base
path has no slash). -/
def takeUpToLastSlash (l : List Char) : List Char :=
  (l.reverse.dropWhile (· ≠ '/')).reverse

/-- `urllib.parse.urljoin`. -/
def urljoin (base url : String) : String :=
  if base = "" then url
  else if url = "" then base
  else
    let b := urlsplitL base.data
    let r := urlsplitL url.data
    if r.scheme ≠ [] && r.scheme ≠ b.scheme then url
    else if r.netloc ≠ [] then
      ⟨urlunsplitL ⟨b.scheme, r.netloc, rdsL r.path, r.query, r.frag⟩⟩
    else if r.path = [] then
      ⟨urlunsplitL ⟨b.scheme, b.netloc, b.path,
        (if r.query ≠ [] then r.query else b.query), r.frag⟩⟩
    else if listHasPrefix "/".data r.path then
      ⟨urlunsplitL ⟨b.scheme, b.netloc, rdsL r.path, r.query, r.frag⟩⟩
    else
      let merged :=
        if b.netloc ≠ [] && b.path = [] then '/' :: r.path
        else takeUpToLastSlash b.path ++ r.path
      ⟨urlunsplitL ⟨b.scheme, b.netloc, rdsL merged, r.query, r.frag⟩⟩

/-! ## Shared data shapes

An `<img>` element is embedded as the tuple of attributes and DOM context
the scrapers read from it: its `src` and `data-src` attributes, its `alt`
text, the text of the DOM contexts the two figure-label heuristics consult
(`find_parent(['figure', 'div'])` for scrape_all.py, `find_parent()` plus
the previous "Figure" string sibling for scraper.py). -/

/-- One `<img>` tag with the context the extractors access. -/
structure Img where
  src : Option String := none
  dataSrc : Option String := none
  alt : String := ""
  /-- Text of the nearest `figure`/`div` ancestor (scrape_all.py 189). -/
  parentFigDivText : Option String := none
  /-- Text of the immediate parent (scraper.py 804). -/
  parentText : Option String := none
  /-- The first preceding string sibling containing "Figure",
  case-insensitively (scraper.py 813), when one exists. -/
  prevFigText : Option String := none
deriving Repr, DecidableEq

/-- A collected image reference (`{url, alt, figure_label}` dict, with the
`local_path` key optionally added by the download pass). -/
structure ImageRef where
  url : String
  alt : String := ""
  figure_label : String := ""
  local_path : Option String := none
deriving Repr, DecidableEq

/-! ## scrape_all.py — `EyeRoundsFullScraper` -/

namespace ScrapeAll

/-- The fixed 17-label category enumeration (scrape_all.py 13). -/
def CATEGORIES : List String :=
  ["CATARACT", "CONTACT LENS", "CORNEA", "EXTERNAL DISEASE", "GENETICS",
   "GLAUCOMA", "INHERITED DISEASE", "IRIS", "LENS", "NEURO-OP",
   "PATHOLOGY", "OCULOPLASTICS", "RETINA", "SYSTEMS", "TRAUMA",
   "UVEITIS", "VITREOUS"]

/-- `self.base_url` (scrape_all.py 27). -/
def base_url : String := "https://eyerounds.org"

/-- `self.webeye_base` (scrape_all.py 28). -/
def webeye_base : String := "https://webeye.ophth.uiowa.edu"

/-- `resolve_url` (scrape_all.py 42-56): resolve a source to an absolute
URL; `none` only for a falsy source. -/
def resolve_url (url : String) (page_url : Option String) : Option String :=
  if url = "" then none
  else if strStartsWith url "http" then some url
  else if strStartsWith url "//" then some ("https:" ++ url)
  else if strStartsWith url "/" then
    match page_url with
    | some p =>
      if hasSubStr p "webeye.ophth.uiowa.edu" then some (urljoin webeye_base url)
      else some (urljoin base_url url)
    | none => some (urljoin base_url url)
  else
    match page_url with
    | some p => some (urljoin p url)
    | none => some (urljoin base_url url)

/-- `_extract_category`, category-hint arm (scrape_all.py 135-141): the
first entry category, uppercased and stripped, matched against the
enumeration by containment in either direction. -/
def categoryFromHint (entry_cats : List String) : String :=
  match entry_cats with
  | [] => "OTHER"
  | c0 :: _ =>
    let cat := pyStrip (pyUpper c0)
    match CATEGORIES.find? (fun std => hasSubStr cat std || hasSubStr std cat) with
    | some std => std
    | none => "OTHER"

/-- `_extract_category` (scrape_all.py 126-141): search the page text for
the category-label pattern; on a match return the first enumeration label
contained in the lowercased capture; otherwise fall back to the hint
categories, and finally to `OTHER`. -/
def extract_category (page_text : String) (entry_cats : List String) : String :=
  let viaLabel : Option String :=
    match reSearchS true catPatAll page_text with
    | some m =>
      let cat_text := pyLower (group1S page_text m)
      CATEGORIES.find? (fun std => hasSubStr cat_text (pyLower std))
    | none => none
  match viaLabel with
  | some c => c
  | none => categoryFromHint entry_cats

/-- Footer markers truncating a description (scrape_all.py 157). -/
def descMarkers : List String :=
  ["Image Permissions", "Creative Commons", "University of Iowa", "Address",
   "Related Articles", "Enlarge", "Download"]

/-- The marker loop of `_extract_description` (scrape_all.py 157-159):
each marker present in the running text truncates it (and strips). -/
def applyDescMarkers (desc : String) : String :=
  descMarkers.foldl
    (fun d marker =>
      if hasSubStr d marker then pyStrip (splitFirstAt d marker) else d)
    desc

/-- The pattern loop of `_extract_description` (scrape_all.py 152-161). -/
def descTry (page_text : String) : List RE → String
  | [] => ""
  | p :: rest =>
    match reSearchS false p page_text with
    | some m =>
      let desc := pyStrip (group1S page_text m)
      let desc := reSubS false wsPlusPat " " desc
      let desc := applyDescMarkers desc
      if desc.length > 50 then desc else descTry page_text rest
    | none => descTry page_text rest

/-- `_extract_description` (scrape_all.py 143-163); only the page text is
consulted. -/
def extract_description (page_text : String) : String :=
  descTry page_text [descPat1, descPat2, descPat3, descPat4]

/-- The image denylist (scrape_all.py 168-172). -/
def skip_patterns : List String :=
  ["cc.png", "lowerLogo", "DomeGold", "eyerounds-logo",
   "facebook", "twitter", "instagram", "Eyerounds-500w",
   "/i/current/", "logo", "Logo", "social", "icon", "banner"]

/-- The per-`<img>` body of `_extract_images` (scrape_all.py 174-199):
source attribute chain, case-insensitive denylist, URL resolution,
figure label from the nearest `figure`/`div` ancestor. -/
def imageFromTag (page_url : String) (img : Img) : Option ImageRef :=
  let src := attrOr img.src img.dataSrc
  if src = "" then none
  else if skip_patterns.any (fun sk => hasSubStr (pyLower src) (pyLower sk)) then
    none
  else
    match resolve_url src (some page_url) with
    | none => none
    | some full_url =>
      let figure_label :=
        match img.parentFigDivText with
        | some t =>
          match reSearchS true figLabelPat t with
          | some m => group0S t m
          | none => ""
        | none => ""
      some { url := full_url, alt := img.alt, figure_label := figure_label }

/-- `_extract_images` (scrape_all.py 165-201). -/
def extract_images (imgs : List Img) (page_url : String) : List ImageRef :=
  imgs.filterMap (imageFromTag page_url)

/-- One record of the atlas database driving `scrape_page`
(`entry.get(...)` accesses in scrape_all.py 60, 82, 88, 92, 122-123). -/
structure AtlasEntry where
  src : String := ""
  title : String := ""
  name : Option String := none
  cat : List String := []
  keyWords : String := ""
  year : String := ""
deriving Repr, DecidableEq

/-- A fetched page as `scrape_page` reads it: the first `h1`'s text,
`soup.get_text()`, and the `<img>` tags in document order. -/
structure PageDoc where
  h1 : Option String := none
  text : String := ""
  imgs : List Img := []
deriving Repr

/-- The dict returned by `scrape_page` (scrape_all.py 114-124). -/
structure ScrapeRecord where
  title : String
  url : String
  category : String
  contributor : String
  photographer : String
  description : String
  images : List ImageRef
  keywords : String
  year : String
deriving Repr, DecidableEq

/-- `scrape_page` (scrape_all.py 58-124) after the network fetch: `fetched`
is the fetch outcome (`none` on any request error, in which case the
function returns `None`); an empty `src` also returns `None`.  On success a
record is built and returned unconditionally. -/
def scrape_page (entry : AtlasEntry) (fetched : Option PageDoc) :
    Option ScrapeRecord :=
  if entry.src = "" then none
  else
    let url :=
      if strStartsWith entry.src "http" then entry.src
      else if strStartsWith entry.src "/" then base_url ++ entry.src
      else base_url ++ "/atlas/" ++ entry.src
    match fetched with
    | none => none
    | some doc =>
      let title :=
        if entry.title ≠ "" then entry.title
        else
          match doc.h1 with
          | some h => pyStrip h
          | none => entry.name.getD "Unknown"
      let category := extract_category doc.text entry.cat
      let contributor :=
        match reSearchS true contribPatAll doc.text with
        | some m => reSubS false wsPlusPat " " (pyStrip (group1S doc.text m))
        | none => ""
      let photographer :=
        match reSearchS true photoPatAll doc.text with
        | some m => reSubS false wsPlusPat " " (pyStrip (group1S doc.text m))
        | none => ""
      some
        { title := title
          url := url
          category := category
          contributor := contributor
          photographer := photographer
          description := extract_description doc.text
          images := extract_images doc.imgs url
          keywords := entry.keyWords
          year := entry.year }

/-- The download pass inside `scrape_category` (scrape_all.py 238-242):
when downloading is on and the record has images, each successfully
downloaded image gains a `local_path`.  `dl` is the download oracle
(`none` = download error, image kept URL-only). -/
def attachLocalPaths (dl : String → Option String) (r : ScrapeRecord) :
    ScrapeRecord :=
  if r.images.isEmpty then r
  else
    { r with
      images := r.images.map (fun im =>
        match dl im.url with
        | some p => { im with local_path := some p }
        | none => im) }

/-- The record accumulation of `scrape_category` (scrape_all.py 230-249):
each entry is paired with its fetch outcome; pages whose `scrape_page`
returns `None` are skipped and the loop continues with the rest. -/
def scrape_category_records (download_images : Bool)
    (dl : String → Option String)
    (pages : List (AtlasEntry × Option PageDoc)) : List ScrapeRecord :=
  pages.filterMap (fun pg =>
    (scrape_page pg.1 pg.2).map
      (fun r => if download_images then attachLocalPaths dl r else r))

end ScrapeAll

/-! ## scraper.py — `EyeRoundsScraper` -/

namespace Scraper

/-- `self.base_url` (scraper.py 13). -/
def base_url : String := "https://webeye.ophth.uiowa.edu"

/-- `self.eyerounds_base` (scraper.py 15). -/
def eyerounds_base : String := "https://eyerounds.org"

/-- The `if`/`elif` keyword chain of `_extract_page_category`
(scraper.py 766-797) as an ordered rule table: each rule is the keywords
of one branch (joined by `or` in the source) with the label it returns;
the first matching rule wins, exactly the `elif` order. -/
def pageCategoryRules : List (List String × String) :=
  [(["retina", "vitreous"], "RETINA"),
   (["glaucoma"], "GLAUCOMA"),
   (["cornea"], "CORNEA"),
   (["cataract"], "CATARACT"),
   (["uveitis"], "UVEITIS"),
   (["oculoplastics", "orbit"], "OCULOPLASTICS"),
   (["neuro"], "NEURO-OP"),
   (["trauma"], "TRAUMA"),
   (["pathology"], "PATHOLOGY"),
   (["iris"], "IRIS"),
   (["lens"], "LENS"),
   (["external"], "EXTERNAL DISEASE"),
   (["contact"], "CONTACT LENS"),
   (["genetics"], "GENETICS"),
   (["inherited"], "INHERITED DISEASE"),
   (["system"], "SYSTEMS")]

/-- The keyword chain of `_extract_page_category` (scraper.py 765-797),
applied to the lowercased stripped capture. -/
def pageCategoryOf (cl : String) : String :=
  match pageCategoryRules.find? (fun rule => rule.1.any (fun kw => hasSubStr cl kw)) with
  | some rule => rule.2
  | none => "UNCATEGORIZED"

/-- `_extract_page_category` (scraper.py 756-799) on the page's full
text. -/
def extract_page_category (full_text : String) : String :=
  match reSearchS true catPatPage full_text with
  | some m => pageCategoryOf (pyLower (pyStrip (group1S full_text m)))
  | none => "UNCATEGORIZED"

/-- `_find_figure_label` (scraper.py 801-819): search the parent's text
for the figure pattern, then the preceding "Figure" string sibling; empty
when the image has no parent or nothing matches. -/
def find_figure_label (img : Img) : String :=
  match img.parentText with
  | some t =>
    (match reSearchS true figLabelPat t with
     | some m => group0S t m
     | none =>
       match img.prevFigText with
       | some sib =>
         (match reSearchS true figLabelPat sib with
          | some m2 => group0S sib m2
          | none => "")
       | none => "")
  | none => ""

/-- The image-source resolution repeated in every scraper.py extractor
(e.g. scraper.py 307-315, 435-440, 528-534): absolute kept, root-relative
against `base_url`, otherwise relative to the current page URL. -/
def resolveImgSrc (raw : String) (current_page_url : String) : String :=
  if strStartsWith raw "http" then raw
  else if strStartsWith raw "/" then urljoin base_url raw
  else urljoin current_page_url raw

/-- One extracted entry (scraper.py 282-287 dict shape). -/
structure Entry where
  contributor : String := ""
  photographers : String := ""
  description : String := ""
  images : List ImageRef := []
deriving Repr, DecidableEq

/-- A DOM section as `_extract_entry_from_section` reads it: its full
text, its `<img>` descendants in document order, and the raw texts of its
`<p>` descendants. -/
structure EntrySection where
  text : String := ""
  imgs : List Img := []
  paragraphs : List String := []
deriving Repr

/-- `_extract_entry_from_section` (scraper.py 280-336): contributor and
photographer by the simple label patterns, every image (no denylist
filtering), description from the paragraphs longer than 50 characters;
`None` when both the image list and the description are empty. -/
def mkSectionEntry (sec : EntrySection) (current_page_url : String) : Entry :=
  let contributor :=
    match reSearchS true simpleContribPat sec.text with
    | some m => pyStrip (group1S sec.text m)
    | none => ""
  let photographers :=
    match reSearchS true simplePhotoPat sec.text with
    | some m => pyStrip (group1S sec.text m)
    | none => ""
  let images := sec.imgs.filterMap (fun img =>
    let iurl := attrOr img.src img.dataSrc
    if iurl = "" then none
    else some
      { url := resolveImgSrc iurl current_page_url
        alt := img.alt
        figure_label := find_figure_label img })
  let descriptions := (sec.paragraphs.map pyStrip).filter (fun p => p.length > 50)
  let description :=
    if descriptions.isEmpty then "" else pyJoinSpace descriptions
  { contributor := contributor, photographers := photographers,
    description := description, images := images }

/-- The final emptiness guard of `_extract_entry_from_section`
(scraper.py 336). -/
def extract_entry_from_section (sec : EntrySection)
    (current_page_url : String) : Option Entry :=
  let e := mkSectionEntry sec current_page_url
  if e.images.isEmpty && e.description = "" then none else some e

/-! ### `_extract_entries_improved` (scraper.py 338-544)

The page is embedded as the flat list of sibling nodes the heading walk
traverses: headings (with their level) and content elements (with their
text and `<img>` descendants).  `soup.find_all` enumerates in document
order, which on this flat shape is list order. -/

/-- A page node. -/
inductive Node where
  | heading (lvl : Nat) (text : String)
  | elem (text : String) (imgs : List Img)
deriving Repr

/-- A page's sibling sequence. -/
abbrev Page := List Node

/-- `get_text` of one node. -/
def nodeText : Node → String
  | .heading _ t => t
  | .elem t _ => t

/-- `<img>` descendants of one node (headings contain none). -/
def nodeImgs : Node → List Img
  | .heading _ _ => []
  | .elem _ imgs => imgs

/-- `soup.get_text()` over the whole page. -/
def pageText (p : Page) : String := String.join (p.map nodeText)

/-- `soup.find_all('img')` over the whole page. -/
def pageImgs (p : Page) : List Img := (p.map nodeImgs).flatten

/-- Is this node an h3/h4/h5 whose stripped text contains "Entry"
(scraper.py 344-350)? -/
def isEntryHeading : Node → Bool
  | .heading lvl t => (lvl = 3 || lvl = 4 || lvl = 5) && hasSubStr (pyStrip t) "Entry"
  | .elem _ _ => false

/-- Is this node a heading the section walk skips (scraper.py 376:
`current.name in ['h1','h2','h3','h4','h5']`)? -/
def isSkippedHeading : Node → Bool
  | .heading lvl _ => 1 ≤ lvl && lvl ≤ 5
  | .elem _ _ => false

/-- Positions of the entry headings in document order. -/
def entryHeadingIdxs (p : Page) : List Nat :=
  (List.range p.length).filter (fun i =>
    match p.get? i with
    | some n => isEntryHeading n
    | none => false)

/-- Pair each heading position with the next one (or the end marker):
`entry_headings[i]` with `entry_headings[i+1]` (scraper.py 363). -/
def consecPairs (stop : Nat) : List Nat → List (Nat × Nat)
  | [] => []
  | [a] => [(a, stop)]
  | a :: b :: t => (a, b) :: consecPairs stop (b :: t)

/-- The sibling walk from a heading to the next entry heading
(scraper.py 370-384): the nodes strictly between the two positions, with
every h1–h5 skipped. -/
def sectionNodes (p : Page) (pr : Nat × Nat) : List Node :=
  ((p.drop (pr.1 + 1)).take (pr.2 - pr.1 - 1)).filter
    (fun n => !isSkippedHeading n)

/-- `section_text` accumulation (scraper.py 381-384): a space before each
walked node's text. -/
def sectionText (ns : List Node) : String :=
  ns.foldl (fun acc n => acc ++ " " ++ nodeText n) ""

/-- The scraper.py image denylist (scraper.py 434, 458, 654), matched
case-sensitively against the raw source attribute. -/
def headingSkips : List String := ["DomeGold", "Eyerounds", "cc.png", "related_case"]

/-- The per-image body of the heading-strategy image loop
(scraper.py 432-447): source chain, case-sensitive denylist on the raw
source, resolution, figure label. -/
def headingImgToRef (curl : String) (img : Img) : Option ImageRef :=
  let iurl := attrOr img.src img.dataSrc
  if iurl = "" then none
  else if headingSkips.any (fun sk => hasSubStr iurl sk) then none
  else some
    { url := resolveImgSrc iurl curl
      alt := img.alt
      figure_label := find_figure_label img }

/-- Images of a section (scraper.py 429-447): all `<img>` descendants of
the walked elements, filtered and resolved. -/
def sectionImages (curl : String) (ns : List Node) : List ImageRef :=
  ((ns.map nodeImgs).flatten).filterMap (headingImgToRef curl)

/-- The heading-strategy description pattern loop (scraper.py 396-413):
first matching pattern whose cleaned capture exceeds 30 characters. -/
def headDescTry (stext : String) : List RE → String
  | [] => ""
  | p :: rest =>
    match reSearchS true p stext with
    | some m =>
      let d := pyStrip (group1S stext m)
      let d := reSubS false figSubPatA "" d
      let d := reSubS false figSubPatB "" d
      let d := pyStrip (reSubS false wsPlusPat " " d)
      if d.length > 30 then d else headDescTry stext rest
    | none => headDescTry stext rest

/-- The full heading-strategy description extraction including the
after-contributor fallback (scraper.py 396-425). -/
def headingDescription (stext : String) : String :=
  let d := headDescTry stext [hdPat1, hdPat2, hdPat3, hdPat4]
  if d ≠ "" then d
  else
    match reSearchS false afterContribPat stext with
    | some m =>
      let pd := pyStrip (group1S stext m)
      let pd := reSubS false figSubPatB "" pd
      let pd := pyStrip (reSubS false wsPlusPat " " pd)
      if pd.length > 30 && !hasSubStr (pyTake pd 50) "Figure" then pd else ""
    | none => ""

/-- Build the candidate entry for one heading section
(scraper.py 355-447). -/
def mkHeadingEntry (curl : String) (ns : List Node) : Entry :=
  let stext := sectionText ns
  { contributor :=
      match reSearchS true sectionContribPat stext with
      | some m => pyStrip (group1S stext m)
      | none => ""
    photographers :=
      match reSearchS true sectionPhotoPat stext with
      | some m => pyStrip (group1S stext m)
      | none => ""
    description := headingDescription stext
    images := sectionImages curl ns }

/-- The explicit-heading strategy (scraper.py 353-450): one candidate per
entry heading, kept only when it has images or a description. -/
def entriesFromHeadings (p : Page) (curl : String) : List Entry :=
  (consecPairs p.length (entryHeadingIdxs p)).filterMap (fun pr =>
    let e := mkHeadingEntry curl (sectionNodes p pr)
    if e.images.isEmpty && e.description = "" then none else some e)

/-- The fallback's medical-image filter (scraper.py 456-458): only the
`src` attribute is consulted for both presence and the denylist. -/
def fallbackMedical (p : Page) : List Img :=
  (pageImgs p).filter (fun img =>
    match img.src with
    | some s => s ≠ "" && !headingSkips.any (fun sk => hasSubStr s sk)
    | none => false)

/-- The fallback description pattern loop (scraper.py 489-506). -/
def fbDescTry (etext : String) : List RE → String
  | [] => ""
  | p :: rest =>
    match reSearchS true p etext with
    | some m =>
      let d := pyStrip (group1S etext m)
      let d := reSubS false figSubPatB "" d
      let d := pyStrip (reSubS false wsPlusPat " " d)
      if d.length > 30 then d else fbDescTry etext rest
    | none => fbDescTry etext rest

/-- The fallback description including its after-contributor arm
(scraper.py 495-518). -/
def fbDescription (etext : String) : String :=
  let d := fbDescTry etext [hdPat1, hdPat3, hdPat4]
  if d ≠ "" then d
  else
    match reSearchS false afterContribPatF etext with
    | some m =>
      let pd := pyStrip (group1S etext m)
      let pd := reSubS false figSubPatB "" pd
      let pd := reSubS false figSubPatA "" pd
      let pd := pyStrip (reSubS false wsPlusPat " " pd)
      if pd.length > 30 && !hasSubStr pd "Enlarge" && !hasSubStr pd "Download"
      then pd else ""
    | none => ""

/-- Pair each `Entry N` text match with the start of the next match (or
the text length) — the slice bounds of scraper.py 475-477. -/
def withStops (stop : Nat) : List RXM → List (RXM × Nat)
  | [] => []
  | [m] => [(m, stop)]
  | m :: m2 :: t => (m, m2.start) :: withStops stop (m2 :: t)

/-- One iteration of the fallback loop over `Entry N` text matches
(scraper.py 466-542); `acc` is the list built so far (`not entries` on
line 527 consults it). -/
def fallbackEntryStep (full curl : String) (medical : List Img)
    (acc : List Entry) (mp : RXM × Nat) : List Entry :=
  let etext : String := ⟨sliceL full.data mp.1.start mp.2⟩
  let contributor :=
    match reSearchS true simpleContribPat etext with
    | some m => pyStrip (group1S etext m)
    | none => ""
  let photographers :=
    match reSearchS true simplePhotoPat etext with
    | some m => pyStrip (group1S etext m)
    | none => ""
  let description := fbDescription etext
  let entry_num := group1S full mp.1
  let images := medical.filterMap (fun img =>
    let iurl := attrOr img.src img.dataSrc
    if iurl = "" then none
    else
      let fl := find_figure_label img
      if hasSubStr fl entry_num || acc.isEmpty then
        some
          { url := resolveImgSrc iurl curl
            alt := img.alt
            figure_label := fl }
      else none)
  if images.isEmpty && description = "" then acc
  else acc ++ [{ contributor := contributor, photographers := photographers,
                 description := description, images := images }]

/-- The image-grouping fallback of `_extract_entries_improved`
(scraper.py 452-542), entered only when the heading strategy produced
nothing. -/
def improvedFallback (p : Page) (curl : String) : List Entry :=
  let full := pageText p
  let medical := fallbackMedical p
  if medical.isEmpty then []
  else
    let ms := reFindIter true entryNumPat full
    if ms.isEmpty then []
    else (withStops full.data.length ms).foldl
      (fallbackEntryStep full curl medical) []

/-- `_extract_entries_improved` (scraper.py 338-544). -/
def extract_entries_improved (p : Page) (curl : String) : List Entry :=
  let es := entriesFromHeadings p curl
  if es.isEmpty then improvedFallback p curl else es

/-! ### `_extract_condition_title` (scraper.py 727-754) -/

/-- The chrome phrases rejected for an h1 title (scraper.py 736). -/
def chrome_titles : List String :=
  ["ophthalmology and visual sciences", "eyerounds.org", "atlas"]

/-- URL path parts skipped by the slug fallback (scraper.py 749). -/
def url_skip_parts : List String := ["index.htm", "index.html", "pages", "atlas"]

/-- `_extract_condition_title` (scraper.py 727-754).  `soup.find('h1')`
and `soup.find('h2')` return the first heading of each level, so the
function is embedded over the lists of h1 texts and h2 texts in document
order. -/
def extract_condition_title (h1s h2s : List String) (url : String) : String :=
  let viaH1 : Option String :=
    match h1s.head? with
    | some h =>
      let t := pyStrip h
      let t := reSubS false h1PrefixPat "" t
      let t := reSubS false h1SuffixPat "" t
      if t ≠ "" && t.length > 3 && !chrome_titles.contains (pyLower t) then
        some t
      else none
    | none => none
  match viaH1 with
  | some t => t
  | none =>
    let viaH2 : Option String :=
      match h2s.head? with
      | some h =>
        let t := pyStrip h
        if t ≠ "" && t.length > 3 && !hasSubStr (pyLower t) "ophthalmology" then
          some t
        else none
      | none => none
    match viaH2 with
    | some t => t
    | none =>
      match (pySplitChar (pyRstrip url '/') '/').reverse.find?
          (fun part => part ≠ "" && !url_skip_parts.contains part) with
      | some part =>
        pyTitle (pyReplaceChar (pyReplaceChar part '-' ' ') '_' ' ')
      | none => "Unknown Condition"

end Scraper

/-! ## Persistence — flashcard_generator.py, generate_flashcards.py, app.py

`json.dump`/`json.load` serialize JSON-representable values verbatim, so a
file is embedded as holding the stored value itself.  The filesystem state
relevant to the loaders is the pair of files `data/all_flashcards.json`
(current format) and `data/flashcards.json` (legacy format written by
`FlashcardGenerator.save_flashcards`); the card type is a parameter since
neither saver nor loader inspects the records. -/

namespace Persist

/-- The current-format document written by generate_flashcards.py 69-74:
`{total, categories, flashcards}`. -/
structure MasterDoc (α : Type) where
  total : Nat
  categories : List String
  flashcards : List α
deriving Repr, DecidableEq

/-- The two flashcard files. -/
structure Store (α : Type) where
  allFile : Option (MasterDoc α) := none
  legacyFile : Option (List α) := none
deriving Repr, DecidableEq

/-- `FlashcardGenerator.save_flashcards` (flashcard_generator.py 136-140):
dump the bare array to `data/flashcards.json`. -/
def save_flashcards {α : Type} (cards : List α) (st : Store α) : Store α :=
  { st with legacyFile := some cards }

/-- `FlashcardGenerator.load_flashcards` (flashcard_generator.py 142-148):
empty list when the file does not exist, else its contents. -/
def fg_load_flashcards {α : Type} (st : Store α) : List α :=
  st.legacyFile.getD []

/-- The master write of `generate_flashcards` (generate_flashcards.py
69-74). -/
def save_master {α : Type} (cards : List α) (cats : List String)
    (st : Store α) : Store α :=
  { st with allFile := some ⟨cards.length, cats, cards⟩ }

/-- `load_flashcards` in app.py 370-386: try the current format first
(returning its `flashcards` field), fall back to the legacy bare array,
else the empty list. -/
def app_load_flashcards {α : Type} (st : Store α) : List α :=
  match st.allFile with
  | some d => d.flashcards
  | none => st.legacyFile.getD []

/-- The record written per entry by generate_flashcards.py 36-47 (used to
instantiate the polymorphic store in witnesses). -/
structure Flashcard where
  id : String := ""
  category : String := ""
  title : String := ""
  description : String := ""
  contributor : String := ""
  photographer : String := ""
  source_url : String := ""
  images : List ImageRef := []
  keywords : String := ""
  year : String := ""
deriving Repr, DecidableEq

end Persist

/-! ## Specification-side definitions

These are written from the specification's words (spec.md §4.2, §4.5) —
not from the source — for the refinement claims that compare the two. -/

/-- Modelled from the spec (§4.5, claim C7): the four resolution rules as
the specification states them, with origin membership read as the code's
containment test of the webeye host name in the page URL. -/
def resolveUrlSpec (url page : String) : String :=
  if strStartsWith url "http" then url
  else if strStartsWith url "//" then "https:" ++ url
  else if strStartsWith url "/" then
    if hasSubStr page "webeye.ophth.uiowa.edu" then
      urljoin ScrapeAll.webeye_base url
    else urljoin ScrapeAll.base_url url
  else urljoin page url

/-- Spec-side chrome filter (claim C6): "text is not a site-chrome
phrase". -/
def specChromeOk (t : String) : Bool :=
  !Scraper.chrome_titles.contains (pyLower t)

/-- The slug fallback of the title resolver: last meaningful path segment,
separators to spaces, title-cased; `"Unknown Condition"` when no segment
qualifies (scraper.py 746-754). -/
def titleSlug (url : String) : String :=
  match (pySplitChar (pyRstrip url '/') '/').reverse.find?
      (fun part => part ≠ "" && !Scraper.url_skip_parts.contains part) with
  | some part => pyTitle (pyReplaceChar (pyReplaceChar part '-' ' ') '_' ' ')
  | none => "Unknown Condition"

/-- Modelled from the spec (§4.2, claim C6 as stated): first h1 whose text
is not a chrome phrase, else first h2 *under the same filter*, else the
URL slug. -/
def resolveTitleSpec (h1s h2s : List String) (url : String) : String :=
  match (h1s.map pyStrip).find? specChromeOk with
  | some t => t
  | none =>
    match (h2s.map pyStrip).find? specChromeOk with
    | some t => t
    | none => titleSlug url

/-- The h1 strategy exactly as the source implements it (scraper.py
729-737): strip, remove the `EyeRounds.org` prefix/suffix, then require
length > 3 and absence from the chrome-phrase list. -/
def titleFromH1 (h1s : List String) : Option String :=
  match h1s.head? with
  | some h =>
    let t := pyStrip h
    let t := reSubS false h1PrefixPat "" t
    let t := reSubS false h1SuffixPat "" t
    if t ≠ "" && t.length > 3 && !Scraper.chrome_titles.contains (pyLower t) then
      some t
    else none
  | none => none

/-- The h2 strategy exactly as the source implements it (scraper.py
739-744): strip, then require length > 3 and that the lowercased text does
not contain "ophthalmology". -/
def titleFromH2 (h2s : List String) : Option String :=
  match h2s.head? with
  | some h =>
    let t := pyStrip h
    if t ≠ "" && t.length > 3 && !hasSubStr (pyLower t) "ophthalmology" then
      some t
    else none
  | none => none

/-- The amended claim C6 as a strategy chain: first h1 (source filter),
else first h2 (its own, different filter), else the URL slug. -/
def resolveTitleAmended (h1s h2s : List String) (url : String) : String :=
  match titleFromH1 h1s with
  | some t => t
  | none =>
    match titleFromH2 h2s with
    | some t => t
    | none => titleSlug url

/-! ## Concrete inputs for counterexamples and witnesses -/

/-- C2 counterexample page text: contains the spec's literal
`Categories: Retina, Vitreous`. -/
def c2text : String := "Categories: Retina, Vitreous"

/-- C2 amended-claim page text in the site's actual label format. -/
def c2goodText : String := "Category(ies): Retina, Vitreous"

/-- C3 counterexample image tag. -/
def c3img : Img := { src := some "x.jpg" }

/-- C3 counterexample page URL. -/
def c3url : String := "https://eyerounds.org/atlas/pages/p/index.htm"

/-- C4 counterexample section: one image whose source is the
Creative-Commons badge `cc.png`. -/
def c4sec : Scraper.EntrySection := { imgs := [{ src := some "cc.png" }] }

/-- C4 counterexample page URL. -/
def c4url : String :=
  "https://webeye.ophth.uiowa.edu/eyeforum/atlas/pages/foo/index.htm"

/-- C4 witness page: one `Entry 1` heading followed by one content element
holding a clinical image. -/
def c4wPage : Scraper.Page :=
  [Scraper.Node.heading 4 "Entry 1",
   Scraper.Node.elem "" [{ src := some "pic.jpg" }]]

/-- C4 witness page URL. -/
def c4wUrl : String :=
  "https://webeye.ophth.uiowa.edu/eyeforum/atlas/pages/bar/index.htm"

/-- C5 counterexample atlas-database entry. -/
def c5entry : ScrapeAll.AtlasEntry := { src := "pages/x.htm", title := "Test Page" }

/-- C5 counterexample fetched page: no headings, no text, no images. -/
def c5doc : ScrapeAll.PageDoc := {}

/-- C6 counterexample URL. -/
def c6url : String := "https://eyerounds.org/atlas/pages/foo/index.htm"

/-- C7 witness source. -/
def c7src : String := "/a/b"

/-- C7 witness page URL. -/
def c7page : String := "https://webeye.ophth.uiowa.edu/atlas/index.htm"

/-- C8 witness collection. -/
def c8cards : List Persist.Flashcard :=
  [{ id := "retina_0", category := "RETINA", title := "Choroidal Hemangioma",
     description := "A choroidal mass.",
     source_url := "https://eyerounds.org/atlas/pages/x/index.htm",
     images := [{ url := "https://eyerounds.org/atlas/pages/x/a.jpg" }] }]

/-- C9 witness entry whose fetch fails. -/
def c9entry : ScrapeAll.AtlasEntry := { src := "pages/y.htm" }

/-- C9 witness entry whose fetch succeeds. -/
def c9entry2 : ScrapeAll.AtlasEntry := { src := "pages/z.htm", title := "Z" }

/-- C9 witness fetched page for the succeeding entry. -/
def c9doc : ScrapeAll.PageDoc := { text := "Contributor: A. Person\n" }

/-! ## Helper lemmas -/

/-- The hint arm of the category resolver only produces enumeration
members or `OTHER`. -/
theorem categoryFromHint_mem (cats : List String) :
    ScrapeAll.categoryFromHint cats ∈ ScrapeAll.CATEGORIES ∨
      ScrapeAll.categoryFromHint cats = "OTHER" := by
  unfold ScrapeAll.categoryFromHint
  cases cats with
  | nil => exact Or.inr rfl
  | cons c0 t =>
    cases hf : ScrapeAll.CATEGORIES.find?
        (fun std => hasSubStr (pyStrip (pyUpper c0)) std
          || hasSubStr std (pyStrip (pyUpper c0))) with
    | none => simp [hf]
    | some std => simp [hf]; exact Or.inl (List.mem_of_find?_eq_some hf)

/-- The keyword chain of `_extract_page_category` only produces
enumeration members or `UNCATEGORIZED`. -/
theorem pageCategoryOf_mem (cl : String) :
    Scraper.pageCategoryOf cl ∈ ScrapeAll.CATEGORIES ∨
      Scraper.pageCategoryOf cl = "UNCATEGORIZED" := by
  unfold Scraper.pageCategoryOf
  cases hf : Scraper.pageCategoryRules.find?
      (fun rule => rule.1.any (fun kw => hasSubStr cl kw)) with
  | none => simp [hf]
  | some rule =>
    simp only [hf]
    have htab : ∀ r ∈ Scraper.pageCategoryRules, r.2 ∈ ScrapeAll.CATEGORIES := by
      decide
    exact Or.inl (htab rule (List.mem_of_find?_eq_some hf))

/-! ## Claim theorems -/

/-- C1: for every page markup input, the category resolvers
(`_extract_page_category` in scraper.py and `_extract_category` in
scrape_all.py) return a member of the fixed 17-label enumeration or the
sentinel (`OTHER` / `UNCATEGORIZED` respectively); no other substring of
the page text is ever returned. -/
theorem category_resolvers_in_enum :
    (∀ (page_text : String) (entry_cats : List String),
      ScrapeAll.extract_category page_text entry_cats ∈ ScrapeAll.CATEGORIES ∨
        ScrapeAll.extract_category page_text entry_cats = "OTHER") ∧
    (∀ full_text : String,
      Scraper.extract_page_category full_text ∈ ScrapeAll.CATEGORIES ∨
        Scraper.extract_page_category full_text = "UNCATEGORIZED") := by
  constructor
  · intro t cats
    unfold ScrapeAll.extract_category
    cases hs : reSearchS true catPatAll t with
    | none => simpa [hs] using categoryFromHint_mem cats
    | some m =>
      cases hf : ScrapeAll.CATEGORIES.find?
          (fun std => hasSubStr (pyLower (group1S t m)) (pyLower std)) with
      | none => simpa [hs, hf] using categoryFromHint_mem cats
      | some c =>
        simp only [hs, hf]
        exact Or.inl (List.mem_of_find?_eq_some hf)
  · intro t
    unfold Scraper.extract_page_category
    cases hs : reSearchS true catPatPage t with
    | none => simp [hs]
    | some m => simpa [hs] using pageCategoryOf_mem (pyLower (pyStrip (group1S t m)))

/-- C2 counterexample: the concrete page text `c2text` contains the
spec's `Categories: Retina, Vitreous` literal, yet `_extract_category`
returns `OTHER` (with no hint) and `_extract_page_category` returns
`UNCATEGORIZED`, because the pattern `Category\(?ies?\)?` requires the
literal letters `ie` after `Category` and therefore never matches plain
`Categories:`. -/
theorem categories_literal_not_matched :
    hasSubStr c2text "Categories: Retina, Vitreous" = true ∧
    ScrapeAll.extract_category c2text [] = "OTHER" ∧
    Scraper.extract_page_category c2text = "UNCATEGORIZED" :=
  ⟨rfl, rfl, rfl⟩

/-- C2 amended: the label pattern matches the site's literal
`Category(ies):` spelling; on `Category(ies): Retina, Vitreous` the
scrape_all.py resolver returns `RETINA` — the first containment match in
enumeration order.  The scraper.py resolver is *not* equivalent: its
capture class `[^\\n]` cannot match the letter `n`, so `Retina,
Vitreous` is never captured and it returns `UNCATEGORIZED` on the same
input. -/
theorem category_ies_format_resolves_retina :
    ScrapeAll.extract_category c2goodText [] = "RETINA" ∧
    Scraper.extract_page_category c2goodText = "UNCATEGORIZED" :=
  ⟨rfl, rfl⟩

/-- C3 counterexample: two identical `<img>` tags with the same resolved
URL produce two identical entries — `_extract_images` keeps duplicates,
so its output does not contain each resolved URL exactly once. -/
theorem extract_images_duplicates_kept :
    (ScrapeAll.extract_images [c3img, c3img] c3url).map ImageRef.url =
      ["https://eyerounds.org/atlas/pages/p/x.jpg",
       "https://eyerounds.org/atlas/pages/p/x.jpg"] :=
  rfl

/-- C3 amended: `_extract_images` performs no de-duplication — it maps
each kept `<img>` independently to one output entry in document order, so
concatenating inputs concatenates outputs and repeated identical tags
yield repeated entries. -/
theorem extract_images_append_hom (l1 l2 : List Img) (u : String) :
    ScrapeAll.extract_images (l1 ++ l2) u =
      ScrapeAll.extract_images l1 u ++ ScrapeAll.extract_images l2 u := by
  simp [ScrapeAll.extract_images, List.filterMap_append]

/-- `consecPairs` pairs every heading position exactly once. -/
theorem consecPairs_length (stop : Nat) (l : List Nat) :
    (Scraper.consecPairs stop l).length = l.length := by
  induction l with
  | nil => rfl
  | cons a t ih =>
    cases t with
    | nil => rfl
    | cons b t2 =>
      simp only [Scraper.consecPairs, List.length_cons] at ih ⊢
      omega

/-- Inversion of the keep-guard of the heading strategy: an emitted entry
is the built candidate and has images or a description. -/
theorem entry_guard_inv (e e' : Scraper.Entry)
    (h : (if e.images.isEmpty && e.description = "" then none else some e) =
      some e') :
    e' = e ∧ (e.images ≠ [] ∨ e.description ≠ "") := by
  split at h
  · cases h
  · next hc =>
    cases h
    refine ⟨rfl, ?_⟩
    by_cases hi : e.images = []
    · refine Or.inr (fun hd => hc ?_)
      simp [hi, hd]
    · exact Or.inl hi

/-- Inversion of the heading-strategy image loop: every produced
reference comes from a non-empty raw source that passed the denylist, and
its URL is that source resolved against the page URL. -/
theorem headingImgToRef_sound (curl : String) (img : Img) (ref : ImageRef)
    (h : Scraper.headingImgToRef curl img = some ref) :
    ∃ raw : String, raw ≠ "" ∧
      Scraper.headingSkips.any (fun sk => hasSubStr raw sk) = false ∧
      ref.url = Scraper.resolveImgSrc raw curl := by
  simp only [Scraper.headingImgToRef] at h
  split at h
  · cases h
  · next h1 =>
    split at h
    · cases h
    · next h2 =>
      cases h
      exact ⟨attrOr img.src img.dataSrc, h1, by simpa using h2, rfl⟩

/-- C4 counterexample: a section whose only image source is the
Creative-Commons badge `cc.png` (a denylist member) still yields a record
from `_extract_entry_from_section`, and the record's image list contains
the resolved `cc.png` URL — the contributor-anchor extractor applies no
denylist filter, refuting the claim's "no record emitted by any
segmentation strategy carries a denylisted URL". -/
theorem entry_from_section_keeps_denylisted :
    (Scraper.extract_entry_from_section c4sec c4url).map
        (fun e => e.images.map ImageRef.url) =
      some ["https://webeye.ophth.uiowa.edu/eyeforum/atlas/pages/foo/cc.png"] ∧
    hasSubStr "https://webeye.ophth.uiowa.edu/eyeforum/atlas/pages/foo/cc.png"
        "cc.png" = true :=
  ⟨rfl, rfl⟩

/-- C4 amended: the explicit-heading strategy of
`_extract_entries_improved` emits at most one record per `Entry` heading —
a candidate with no images and empty description (e.g. a heading with an
empty section) is dropped — and whenever the heading strategy yields
records they are the function's output.  Every image in such a record
stems from a raw source that passed the strategy's denylist
(`DomeGold`/`Eyerounds`/`cc.png`/`related_case`, matched case-sensitively
against the raw attribute).  The contributor-anchor extractor
(`_extract_entry_from_section`) applies no such filter (see the
counterexample). -/
theorem entries_from_headings_sound (p : Scraper.Page) (curl : String) :
    (Scraper.entriesFromHeadings p curl ≠ [] →
      Scraper.extract_entries_improved p curl =
        Scraper.entriesFromHeadings p curl) ∧
    (Scraper.entriesFromHeadings p curl).length ≤
      (Scraper.entryHeadingIdxs p).length ∧
    ∀ e ∈ Scraper.entriesFromHeadings p curl,
      (e.images ≠ [] ∨ e.description ≠ "") ∧
      ∀ ref ∈ e.images, ∃ raw : String, raw ≠ "" ∧
        Scraper.headingSkips.any (fun sk => hasSubStr raw sk) = false ∧
        ref.url = Scraper.resolveImgSrc raw curl := by
  refine ⟨?_, ?_, ?_⟩
  · intro h
    simp [Scraper.extract_entries_improved, List.isEmpty_eq_false.mpr h]
  · calc (Scraper.entriesFromHeadings p curl).length
        ≤ (Scraper.consecPairs p.length (Scraper.entryHeadingIdxs p)).length :=
          List.length_filterMap_le _ _
      _ = (Scraper.entryHeadingIdxs p).length := consecPairs_length _ _
  · intro e he
    rw [Scraper.entriesFromHeadings, List.mem_filterMap] at he
    obtain ⟨pr, _, hsome⟩ := he
    obtain ⟨rfl, hne⟩ := entry_guard_inv _ _ hsome
    refine ⟨hne, ?_⟩
    intro ref href
    have himg : ref ∈ Scraper.sectionImages curl (Scraper.sectionNodes p pr) := href
    rw [Scraper.sectionImages, List.mem_filterMap] at himg
    obtain ⟨img, _, hres⟩ := himg
    exact headingImgToRef_sound curl img ref hres

/-- C4 witness: on the concrete page with one `Entry 1` heading followed
by a content element with one clinical image, the heading strategy's
output is non-empty and is the function's output, and the record count is
bounded by the heading count. -/
theorem entries_from_headings_sound_witness :
    Scraper.extract_entries_improved c4wPage c4wUrl =
      Scraper.entriesFromHeadings c4wPage c4wUrl ∧
    (Scraper.entriesFromHeadings c4wPage c4wUrl).length ≤
      (Scraper.entryHeadingIdxs c4wPage).length := by
  have h := entries_from_headings_sound c4wPage c4wUrl
  exact ⟨h.1 (by decide), h.2.1⟩

/-- C5 counterexample: on a successfully fetched page with no images and
no qualifying description text, `scrape_page` in scrape_all.py still
returns a record — with an empty image list *and* an empty description —
which `scrape_category` then appends and persists; the claimed drop never
happens in this pipeline. -/
theorem scrape_page_emits_empty_record :
    (ScrapeAll.scrape_page c5entry (some c5doc)).map
      (fun r => (r.images, r.description)) = some ([], "") :=
  rfl

/-- C5 amended: the drop-guard for entry candidates with zero images and
empty description exists in scraper.py's extractors —
`_extract_entry_from_section` returns `None` for such a candidate — but
scrape_all.py's `scrape_page` emits a record for every successfully
fetched page with a non-empty `src` unconditionally, even when both the
image list and the description are empty. -/
theorem extraction_empty_guard :
    (∀ (sec : Scraper.EntrySection) (curl : String),
      Scraper.extract_entry_from_section sec curl = none ∨
      ∃ e, Scraper.extract_entry_from_section sec curl = some e ∧
        (e.images ≠ [] ∨ e.description ≠ "")) ∧
    (∀ (entry : ScrapeAll.AtlasEntry) (doc : ScrapeAll.PageDoc),
      entry.src ≠ "" →
      (ScrapeAll.scrape_page entry (some doc)).isSome = true) := by
  constructor
  · intro sec curl
    cases h : Scraper.extract_entry_from_section sec curl with
    | none => exact Or.inl rfl
    | some e =>
      refine Or.inr ⟨e, rfl, ?_⟩
      simp only [Scraper.extract_entry_from_section] at h
      obtain ⟨rfl, hne⟩ := entry_guard_inv _ _ h
      exact hne
  · intro entry doc h
    unfold ScrapeAll.scrape_page
    rw [if_neg h]
    rfl

/-- C5 witness: the guard-free emission applied at the concrete
counterexample page. -/
theorem extraction_empty_guard_witness :
    (ScrapeAll.scrape_page c5entry (some c5doc)).isSome = true :=
  extraction_empty_guard.2 c5entry c5doc (by decide)

/-- `pyTitleGo` preserves length. -/
theorem pyTitleGo_length (b : Bool) (l : List Char) :
    (pyTitleGo b l).length = l.length := by
  induction l generalizing b with
  | nil => rfl
  | cons c rest ih =>
    simp only [pyTitleGo]
    split <;> simp [ih]

/-- The slug derivation preserves the segment's length. -/
theorem slugTitle_data_length (part : String) :
    (pyTitle (pyReplaceChar (pyReplaceChar part '-' ' ') '_' ' ')).data.length
      = part.data.length := by
  simp [pyTitle, pyReplaceChar, pyTitleGo_length]

/-- The URL-slug fallback never returns the empty string. -/
theorem titleSlug_ne_empty (url : String) : titleSlug url ≠ "" := by
  unfold titleSlug
  cases hf : (pySplitChar (pyRstrip url '/') '/').reverse.find?
      (fun part => part ≠ "" && !Scraper.url_skip_parts.contains part) with
  | none => simp
  | some part =>
    simp only
    have hp := List.find?_some hf
    rw [Bool.and_eq_true] at hp
    have hne : part ≠ "" := of_decide_eq_true hp.1
    intro hcontra
    apply hne
    have hlen := slugTitle_data_length part
    rw [hcontra] at hlen
    have hdata : part.data = [] := List.length_eq_zero.mp hlen.symm
    cases part
    simpa using congrArg String.mk hdata

/-- The h1 strategy only yields strings of length > 3, hence non-empty. -/
theorem titleFromH1_ne (h1s : List String) (t : String)
    (h : titleFromH1 h1s = some t) : t ≠ "" := by
  unfold titleFromH1 at h
  cases h1s with
  | nil => exact Option.noConfusion h
  | cons h0 rest =>
    dsimp only [List.head?] at h
    split at h
    · next hcond =>
      cases h
      rw [Bool.and_eq_true, Bool.and_eq_true] at hcond
      exact of_decide_eq_true hcond.1.1
    · exact Option.noConfusion h

/-- The h2 strategy only yields strings of length > 3, hence non-empty. -/
theorem titleFromH2_ne (h2s : List String) (t : String)
    (h : titleFromH2 h2s = some t) : t ≠ "" := by
  unfold titleFromH2 at h
  cases h2s with
  | nil => exact Option.noConfusion h
  | cons h0 rest =>
    dsimp only [List.head?] at h
    split at h
    · next hcond =>
      cases h
      rw [Bool.and_eq_true, Bool.and_eq_true] at hcond
      exact of_decide_eq_true hcond.1.1
    · exact Option.noConfusion h

/-- The amended strategy chain never returns the empty string. -/
theorem resolveTitleAmended_ne (h1s h2s : List String) (url : String) :
    resolveTitleAmended h1s h2s url ≠ "" := by
  unfold resolveTitleAmended
  cases hh1 : titleFromH1 h1s with
  | some t => exact titleFromH1_ne _ _ hh1
  | none =>
    cases hh2 : titleFromH2 h2s with
    | some t => exact titleFromH2_ne _ _ hh2
    | none => exact titleSlug_ne_empty url

/-- C6 counterexample: with no h1 and the single h2 `Atlas`, the source
returns `Atlas` (its h2 filter only rejects text containing
"ophthalmology"), while the claim's "first second-level heading under the
same filter" would reject the chrome phrase `atlas` and fall back to the
URL slug `Foo` — the two filters are not the same. -/
theorem title_h2_filter_differs :
    Scraper.extract_condition_title [] ["Atlas"] c6url = "Atlas" ∧
    resolveTitleSpec [] ["Atlas"] c6url = "Foo" :=
  ⟨rfl, rfl⟩

/-- C6 amended: the title resolver always returns a non-empty string and
equals the amended strategy chain: first h1 (stripped of the
`EyeRounds.org` prefix/suffix, kept when longer than 3 characters and not
a chrome phrase), else first h2 under its *own* filter (longer than 3
characters and not containing "ophthalmology"), else the title-cased last
meaningful URL path segment, else the constant `Unknown Condition`. -/
theorem extract_condition_title_amended (h1s h2s : List String) (url : String) :
    Scraper.extract_condition_title h1s h2s url =
      resolveTitleAmended h1s h2s url ∧
    Scraper.extract_condition_title h1s h2s url ≠ "" := by
  have heq : Scraper.extract_condition_title h1s h2s url =
      resolveTitleAmended h1s h2s url := by
    unfold Scraper.extract_condition_title resolveTitleAmended titleFromH1
      titleFromH2 titleSlug
    rfl
  exact ⟨heq, heq ▸ resolveTitleAmended_ne h1s h2s url⟩

/-- C7: for every non-empty source and page URL, `resolve_url` follows
exactly the four claimed rules: absolute (`http` prefix) kept,
protocol-relative prefixed with `https:`, root-relative resolved against
the webeye origin when the page URL contains the webeye host (against the
eyerounds origin otherwise), anything else resolved relative to the page
URL. -/
theorem resolve_url_matches_spec (url page : String) (h : url ≠ "") :
    ScrapeAll.resolve_url url (some page) = some (resolveUrlSpec url page) := by
  unfold ScrapeAll.resolve_url resolveUrlSpec
  rw [if_neg h]
  dsimp only
  split_ifs <;> rfl

/-- C7 witness: a root-relative source on a webeye page resolves against
the webeye origin. -/
theorem resolve_url_matches_spec_witness :
    ScrapeAll.resolve_url c7src (some c7page) =
      some (resolveUrlSpec c7src c7page) ∧
    resolveUrlSpec c7src c7page = "https://webeye.ophth.uiowa.edu/a/b" :=
  ⟨resolve_url_matches_spec c7src c7page (by decide), rfl⟩

/-- C8: loading immediately after saving reproduces the collection for
both persisted formats — the generator's own save/load pair on the legacy
bare array, the current `total`/`categories`/`flashcards` document through
the app loader, and the legacy file through the app loader when no
current-format file shadows it (the loader tries the current format
first). -/
theorem flashcards_round_trip :
    (∀ (α : Type) (cards : List α) (st : Persist.Store α),
      Persist.fg_load_flashcards (Persist.save_flashcards cards st) = cards) ∧
    (∀ (α : Type) (cards : List α) (cats : List String) (st : Persist.Store α),
      Persist.app_load_flashcards (Persist.save_master cards cats st) = cards) ∧
    (∀ (α : Type) (cards : List α) (st : Persist.Store α),
      st.allFile = none →
      Persist.app_load_flashcards (Persist.save_flashcards cards st) = cards) := by
  refine ⟨fun α cards st => rfl, fun α cards cats st => rfl,
    fun α cards st h => ?_⟩
  simp [Persist.app_load_flashcards, Persist.save_flashcards, h]

/-- C8 witness: the legacy round-trip on a concrete one-card collection in
an empty store. -/
theorem flashcards_round_trip_witness :
    Persist.app_load_flashcards (Persist.save_flashcards c8cards {}) =
      c8cards :=
  flashcards_round_trip.2.2 _ c8cards {} rfl

/-- C9: a failed fetch makes `scrape_page` return `None` with no partial
record, and `scrape_category`'s accumulation skips that page and
continues with the remaining pages — one failure never terminates the
batch. -/
theorem fetch_failure_skipped :
    (∀ entry : ScrapeAll.AtlasEntry, ScrapeAll.scrape_page entry none = none) ∧
    (∀ (download_images : Bool) (dl : String → Option String)
      (e : ScrapeAll.AtlasEntry) (f : Option ScrapeAll.PageDoc)
      (rest : List (ScrapeAll.AtlasEntry × Option ScrapeAll.PageDoc)),
      ScrapeAll.scrape_page e f = none →
      ScrapeAll.scrape_category_records download_images dl ((e, f) :: rest) =
        ScrapeAll.scrape_category_records download_images dl rest) := by
  constructor
  · intro entry
    unfold ScrapeAll.scrape_page
    split <;> rfl
  · intro di dl e f rest h
    simp [ScrapeAll.scrape_category_records, List.filterMap_cons, h]

/-- C9 witness: a concrete batch where the first page's fetch fails
produces exactly the records of the remaining pages. -/
theorem fetch_failure_skipped_witness :
    ScrapeAll.scrape_category_records false (fun _ => none)
        [(c9entry, none), (c9entry2, some c9doc)] =
      ScrapeAll.scrape_category_records false (fun _ => none)
        [(c9entry2, some c9doc)] :=
  fetch_failure_skipped.2 false (fun _ => none) c9entry none
    [(c9entry2, some c9doc)] rfl

/-- C10: when no persisted flashcard file exists, both loaders return the
empty list rather than raising: the generator's loader when its file is
absent, and the app loader when both the current and the legacy file are
absent. -/
theorem load_flashcards_missing_empty :
    (∀ (α : Type) (st : Persist.Store α), st.legacyFile = none →
      Persist.fg_load_flashcards st = []) ∧
    (∀ (α : Type) (st : Persist.Store α), st.allFile = none →
      st.legacyFile = none → Persist.app_load_flashcards st = []) := by
  constructor
  · intro α st h
    simp [Persist.fg_load_flashcards, h]
  · intro α st h1 h2
    simp [Persist.app_load_flashcards, h1, h2]

/-- C10 witness: both loaders on the concrete empty store. -/
theorem load_flashcards_missing_empty_witness :
    Persist.fg_load_flashcards
        (Persist.Store.mk none none : Persist.Store Persist.Flashcard) = [] ∧
    Persist.app_load_flashcards
        (Persist.Store.mk none none : Persist.Store Persist.Flashcard) = [] :=
  ⟨load_flashcards_missing_empty.1 _ _ rfl,
   load_flashcards_missing_empty.2 _ _ rfl rfl⟩
